import Mathlib

/-!
Verification of the `openai-response-api-demo` client library
(`src/openai_responses/{models.py, client.py, exceptions.py}`) against its
natural-language specification.

The Python code is shallowly embedded: JSON values are an inductive type,
Python exceptions are an explicit error type threaded through `Except`,
the retry loop of `OpenAIResponsesAPI._make_request` is fuel-indexed
structural recursion over an abstract server script, and the pydantic
validators of `models.py` become `Except`-valued functions.
-/

set_option maxHeartbeats 1000000

/-- JSON values, as decoded by `response.json()` / passed around as Python
dicts, lists, strings, numbers, bools and `None`. Objects keep insertion
order, matching Python dicts. -/
inductive Json where
  | null : Json
  | bool (b : Bool) : Json
  | num (q : ℚ) : Json
  | str (s : String) : Json
  | arr (xs : List Json) : Json
  | obj (fields : List (String × Json)) : Json

namespace Json

/-- First value bound to key `k` in a JSON object field list
(Python `dict` lookup). -/
def lookupField : List (String × Json) → String → Option Json
  | [], _ => none
  | (k', v) :: rest, k => if k' = k then some v else lookupField rest k

/-- Python truthiness of a JSON value (`if x:`). -/
def truthy : Json → Bool
  | .null => false
  | .bool b => b
  | .num q => q != 0
  | .str s => s != ""
  | .arr xs => !xs.isEmpty
  | .obj fs => !fs.isEmpty

/-- Whether the value is Python `None` (for `is not None` filters). -/
def isNull : Json → Bool
  | .null => true
  | _ => false

end Json

/-- The exception taxonomy of `exceptions.py`, together with pydantic's own
`ValidationError` (a distinct class, *not* an `OpenAIResponsesError`) and
the builtin runtime errors the decoding code can raise.
`validationError` is the library's own `exceptions.ValidationError`. -/
inductive PyExc where
  | pydanticValidationError (msg : String) : PyExc
  | validationError (msg : String) : PyExc
  /-- An `APIError(message)` raised with no status code (timeout, request
  failure, the post-loop raise, and the `Unexpected error` wrap). -/
  | apiError (msg : String) : PyExc
  /-- An `APIError(error_message, response.status_code, error_data)` raised in
  the generic non-retryable status branch; `error_message` is the raw
  value pulled out of the error body, kept as JSON. -/
  | apiErrorStatus (msg : Json) (statusCode : ℕ) (errorData : Json) : PyExc
  | authenticationError (msg : String) : PyExc
  | rateLimitError (msg : String) : PyExc
  | quotaExceededError (msg : String) : PyExc
  | attributeError (msg : String) : PyExc
  | typeError (msg : String) : PyExc
  | keyError (msg : String) : PyExc
  | indexError (msg : String) : PyExc

namespace PyExc

/-- Embeds `isinstance(e, OpenAIResponsesError)`: true for the library's own
exception classes (`ValidationError`, `APIError` and its three
subclasses), false for pydantic's `ValidationError` and builtins. -/
def isOpenAIResponsesError : PyExc → Bool
  | .validationError _ => true
  | .apiError _ => true
  | .apiErrorStatus _ _ _ => true
  | .authenticationError _ => true
  | .rateLimitError _ => true
  | .quotaExceededError _ => true
  | _ => false

/-- Embeds `str(e)` as used in `APIError(f"Unexpected error: {str(e)}")`: the
exception's message. Only ever applied to exceptions that are not
`OpenAIResponsesError`s, which all carry a plain string message. -/
def msgOf : PyExc → String
  | .pydanticValidationError m => m
  | .validationError m => m
  | .apiError m => m
  | .apiErrorStatus _ _ _ => ""
  | .authenticationError m => m
  | .rateLimitError m => m
  | .quotaExceededError m => m
  | .attributeError m => m
  | .typeError m => m
  | .keyError m => m
  | .indexError m => m

end PyExc

/-! ## Transport: `OpenAIResponsesAPI._make_request` (client.py 217-267) -/

/-- One observable outcome of `self.session.post(...)` on one attempt:
an HTTP response (status code, optional integer `Retry-After` header
value, decoded JSON body, truthiness of `response.content`), a
`requests.exceptions.Timeout`, or another
`requests.exceptions.RequestException` carrying message `msg`. -/
inductive Outcome where
  | resp (status : ℕ) (retryAfter : Option ℕ) (body : Json) (hasContent : Bool) : Outcome
  | timeout : Outcome
  | requestError (msg : String) : Outcome

/-- Result of one `_make_request` run: the returned JSON body or the
raised exception, the number of HTTP attempts performed (calls to
`session.post`), and the total seconds passed to `time.sleep`. -/
structure RunResult where
  result : Except PyExc Json
  attempts : ℕ
  sleepTotal : ℕ

namespace OpenAIResponsesAPI

/-- Embeds `error_data.get("error", {}).get("message", f"HTTP {response.status_code}")`
from the generic status branch. A non-dict `error_data`, or a non-dict
`error` entry, makes `.get` raise `AttributeError`, which escapes
`_make_request` uncaught exactly as in the source. -/
def errorMessage (errData : Json) (status : ℕ) : Except PyExc Json :=
  match errData with
  | .obj fs =>
    match (Json.lookupField fs "error").getD (Json.obj []) with
    | .obj efs =>
        .ok ((Json.lookupField efs "message").getD
              (Json.str ("HTTP " ++ toString status)))
    | _ => .error (.attributeError "object has no attribute get")
  | _ => .error (.attributeError "object has no attribute get")

/-- What one iteration of the `for attempt in range(self.max_retries + 1)`
loop body does: end the call (a `return` or a `raise`), or sleep
`sleepSecs` seconds and `continue` to the next attempt. -/
inductive StepResult where
  | done (result : Except PyExc Json) : StepResult
  | retryAfterSleep (sleepSecs : ℕ) : StepResult

/-- The body of `_make_request`'s retry loop for one attempt, given the
outcome of this attempt's `session.post` call. Mirrors the
status-dispatch `if`/`elif` chain and the two `except` clauses of
client.py 238-265. -/
def requestStep (maxRetries attempt : ℕ) : Outcome → StepResult
  | .resp status retryAfter body hasContent =>
    if status = 200 then
      .done (.ok body)
    else if status = 401 then
      .done (.error (.authenticationError "Invalid API key or authentication failed."))
    else if status = 429 then
      if attempt < maxRetries then
        .retryAfterSleep (retryAfter.getD 60)
      else
        .done (.error (.rateLimitError "Rate limit exceeded."))
    else if status = 402 then
      .done (.error (.quotaExceededError "Quota exceeded."))
    else
      let errData := if hasContent then body else Json.obj []
      match errorMessage errData status with
      | .ok msg => .done (.error (.apiErrorStatus msg status errData))
      | .error e => .done (.error e)
  | .timeout =>
    if attempt < maxRetries then
      .retryAfterSleep (2 ^ attempt)
    else
      .done (.error (.apiError "Request timeout"))
  | .requestError msg =>
    if attempt < maxRetries then
      .retryAfterSleep (2 ^ attempt)
    else
      .done (.error (.apiError ("Request failed: " ++ msg)))

/-- The `for attempt in range(self.max_retries + 1)` loop of
`_make_request`, as fuel-indexed recursion over `requestStep`. `fuel` is
the number of loop iterations left (initially `max_retries + 1`);
running out of fuel is the loop falling through to the final
`raise APIError("Request failed after all retries")`. `attempt` is the
loop index; `attempts` and `sleepTotal` accumulate `session.post` calls
and slept seconds. -/
def makeRequestLoop (maxRetries : ℕ) (script : ℕ → Outcome) :
    ℕ → ℕ → ℕ → ℕ → RunResult
  | 0, _, attempts, sleepTotal =>
      ⟨.error (.apiError "Request failed after all retries"), attempts, sleepTotal⟩
  | fuel + 1, attempt, attempts, sleepTotal =>
    match requestStep maxRetries attempt (script attempt) with
    | .done r => ⟨r, attempts + 1, sleepTotal⟩
    | .retryAfterSleep s =>
        makeRequestLoop maxRetries script fuel (attempt + 1) (attempts + 1) (sleepTotal + s)

/-- Embeds `OpenAIResponsesAPI._make_request`, run against an abstract server
`script` mapping the attempt index to that attempt's outcome. -/
def make_request (maxRetries : ℕ) (script : ℕ → Outcome) : RunResult :=
  makeRequestLoop maxRetries script (maxRetries + 1) 0 0 0

/-- Whether a result is the post-loop
`raise APIError("Request failed after all retries")` (the fuel-exhausted
case of `makeRequestLoop`). -/
def isFallthroughResult : Except PyExc Json → Bool
  | .error (.apiError m) => m == "Request failed after all retries"
  | _ => false

/-- Whether a `_make_request` run ended in the post-loop
`raise APIError("Request failed after all retries")`. -/
def hitFallthrough (r : RunResult) : Bool :=
  isFallthroughResult r.result

end OpenAIResponsesAPI

/-! ## Models: validators (models.py) -/

/-- Python `str.lower()` restricted to ASCII letters — which is all the
validator vocabularies contain. (Defined over the character list so that
it evaluates by kernel reduction; `String.toLower` agrees on these
inputs but does not reduce.) -/
def pyLower (s : String) : String := String.mk (s.data.map Char.toLower)

/-- Embeds `models.ToolFunction`: `{name, description?, parameters}`. `parameters`
is an arbitrary mapping, passed through unvalidated. -/
structure ToolFunction where
  name : String
  description : Option String
  parameters : List (String × Json)

/-- Embeds `models.Tool`: `{type, function?}`. -/
structure Tool where
  type : String
  function : Option ToolFunction

namespace Tool

/-- The `valid_types` list of `Tool.validate_type` (models.py 26-35). -/
def valid_types : List String :=
  ["function", "code_interpreter", "file_search", "web_search_preview",
   "web_search_preview_2025_03_11", "image_generation", "mcp",
   "computer_use_preview"]

/-- Constructing `Tool(...)`: pydantic runs `validate_type` on `type`
(models.py 23-38), which returns the value unchanged when it is in
`valid_types` and raises otherwise (surfacing as pydantic's
`ValidationError`). No other validator runs: `function` is optional and
unchecked. -/
def validate (t : Tool) : Except PyExc Tool :=
  if t.type ∈ valid_types then .ok t
  else .error (.pydanticValidationError
    "Invalid tool type. Must be one of: [function, code_interpreter, file_search, web_search_preview, web_search_preview_2025_03_11, image_generation, mcp, computer_use_preview]")

end Tool

/-- Embeds `models.ResponseFormat`: the declared pydantic fields. -/
structure ResponseFormat where
  type : String
  style : Option String := none
  tone : Option String := none
  length : Option String := none
  language : Option String := some "en"
  custom_fields : Option (List (String × Json)) := none

namespace ResponseFormat

/-- The `valid_types` list of `ResponseFormat.validate_type` (models.py 56). -/
def valid_types : List String :=
  ["email", "letter", "message", "response", "reply", "note"]

/-- The `valid_styles` list of `validate_style` (models.py 65). -/
def valid_styles : List String :=
  ["professional", "casual", "formal", "friendly", "business"]

/-- The `valid_tones` list of `validate_tone` (models.py 75). -/
def valid_tones : List String :=
  ["friendly", "polite", "assertive", "neutral", "enthusiastic",
   "sympathetic", "professional"]

/-- Embeds `ResponseFormat.validate_type` (models.py 53-59): case-insensitive
membership check, returns the lowercased value. -/
def validate_type (v : String) : Except String String :=
  if pyLower v ∈ valid_types then .ok (pyLower v)
  else .error "Invalid response type. Must be one of: [email, letter, message, response, reply, note]"

/-- Embeds `validate_style` (models.py 61-69): `None` passes through. -/
def validate_style : Option String → Except String (Option String)
  | none => .ok none
  | some v =>
    if pyLower v ∈ valid_styles then .ok (some (pyLower v))
    else .error "Invalid style. Must be one of: [professional, casual, formal, friendly, business]"

/-- Embeds `validate_tone` (models.py 71-79): `None` passes through. -/
def validate_tone : Option String → Except String (Option String)
  | none => .ok none
  | some v =>
    if pyLower v ∈ valid_tones then .ok (some (pyLower v))
    else .error "Invalid tone. Must be one of: [friendly, polite, assertive, neutral, enthusiastic, sympathetic, professional]"

/-- Constructing `ResponseFormat(...)`: pydantic runs the three field
validators; a failing validator surfaces as pydantic's
`ValidationError`. `length`, `language` and `custom_fields` are not
validated. -/
def validate (f : ResponseFormat) : Except PyExc ResponseFormat :=
  match validate_type f.type with
  | .error m => .error (.pydanticValidationError m)
  | .ok t =>
    match validate_style f.style with
    | .error m => .error (.pydanticValidationError m)
    | .ok s =>
      match validate_tone f.tone with
      | .error m => .error (.pydanticValidationError m)
      | .ok tn => .ok { f with type := t, style := s, tone := tn }

end ResponseFormat

/-! ## Response decoder: `models.ResponseResponse` -/

/-- Embeds `models.ToolCall`: `{id, type, function?, hosted_tool?}`; the two
payload fields are Python dicts. -/
structure ToolCall where
  id : String
  type : String
  function : Option (List (String × Json))
  hosted_tool : Option (List (String × Json))

/-- Embeds `models.ResponseResponse`: the declared pydantic fields
(models.py 115-126). `choices` is *not* a declared field —
`ResponseResponse(**raw)` silently drops unknown keys, so
`hasattr(self, 'choices')` is false on every parsed instance; it is kept
here as a slot (always `none` after parsing) so the `choices` fallback
branches of `content` can be transcribed from the source. -/
structure ResponseResponse where
  id : String
  object : Option String := none
  created_at : Option ℤ := none
  status : Option String := none
  model : Option String := none
  output : Option (List Json) := none
  usage : Option (List (String × Json)) := none
  metadata : Option (List (String × Json)) := none
  text : Option (String ⊕ List (String × Json)) := none
  choices : Option (List Json) := none

/-- pydantic decoding of an `Optional[str]` field. -/
def parseOptStr : Option Json → Except PyExc (Option String)
  | none => .ok none
  | some .null => .ok none
  | some (.str s) => .ok (some s)
  | some _ => .error (.pydanticValidationError "Input should be a valid string")

/-- pydantic decoding of an `Optional[int]` field. -/
def parseOptInt : Option Json → Except PyExc (Option ℤ)
  | none => .ok none
  | some .null => .ok none
  | some (.num q) =>
    if q.den = 1 then .ok (some q.num)
    else .error (.pydanticValidationError "Input should be a valid integer")
  | some _ => .error (.pydanticValidationError "Input should be a valid integer")

/-- pydantic decoding of an `Optional[list]` field. -/
def parseOptList : Option Json → Except PyExc (Option (List Json))
  | none => .ok none
  | some .null => .ok none
  | some (.arr xs) => .ok (some xs)
  | some _ => .error (.pydanticValidationError "Input should be a valid list")

/-- pydantic decoding of an `Optional[Dict[str, Any]]` field. -/
def parseOptDict : Option Json → Except PyExc (Option (List (String × Json)))
  | none => .ok none
  | some .null => .ok none
  | some (.obj fs) => .ok (some fs)
  | some _ => .error (.pydanticValidationError "Input should be a valid dictionary")

/-- pydantic decoding of the `Optional[Union[str, Dict[str, Any]]]`
field `text`. -/
def parseOptTextField : Option Json → Except PyExc (Option (String ⊕ List (String × Json)))
  | none => .ok none
  | some .null => .ok none
  | some (.str s) => .ok (some (.inl s))
  | some (.obj fs) => .ok (some (.inr fs))
  | some _ => .error (.pydanticValidationError "Input should be a valid string or dictionary")

/-- Embeds `ResponseResponse(**raw)`: pydantic v2 field extraction. `id` is a
required string; the other declared fields accept their declared shape,
`null`, or absence; undeclared keys (such as `choices`) are ignored. Any
mismatch raises pydantic's `ValidationError`. -/
def parseResponseResponse (raw : Json) : Except PyExc ResponseResponse :=
  match raw with
  | .obj fs =>
    match Json.lookupField fs "id" with
    | some (.str idv) =>
      (match parseOptStr (Json.lookupField fs "object") with
       | .error e => .error e
       | .ok object =>
        match parseOptInt (Json.lookupField fs "created_at") with
        | .error e => .error e
        | .ok created_at =>
          match parseOptStr (Json.lookupField fs "status") with
          | .error e => .error e
          | .ok status =>
            match parseOptStr (Json.lookupField fs "model") with
            | .error e => .error e
            | .ok model =>
              match parseOptList (Json.lookupField fs "output") with
              | .error e => .error e
              | .ok output =>
                match parseOptDict (Json.lookupField fs "usage") with
                | .error e => .error e
                | .ok usage =>
                  match parseOptDict (Json.lookupField fs "metadata") with
                  | .error e => .error e
                  | .ok metadata =>
                    match parseOptTextField (Json.lookupField fs "text") with
                    | .error e => .error e
                    | .ok text =>
                      .ok { id := idv, object := object, created_at := created_at,
                            status := status, model := model, output := output,
                            usage := usage, metadata := metadata, text := text,
                            choices := none })
    | some _ => .error (.pydanticValidationError "id: Input should be a valid string")
    | none => .error (.pydanticValidationError "id: Field required")
  | _ => .error (.pydanticValidationError "Input should be an object")

/-- Substring test: Python `needle in haystack` on two strings. -/
def strContainsSub (hay needle : String) : Bool :=
  (List.range (hay.data.length + 1)).any
    (fun i => needle.data.isPrefixOf (hay.data.drop i))

/-- Python `'k' in x` for the loosely typed values met inside `content`:
key membership for dicts, substring for strings, element equality for
lists, `TypeError` otherwise. -/
def pyContains (j : Json) (k : String) : Except PyExc Bool :=
  match j with
  | .obj fs => .ok (Json.lookupField fs k).isSome
  | .str s => .ok (strContainsSub s k)
  | .arr xs => .ok (xs.any fun x => match x with | .str s => s == k | _ => false)
  | _ => .error (.typeError "argument is not iterable")

/-- Python `x[k]` with a string key: dict lookup (`KeyError` when the key
is absent), `TypeError` for strings, lists and everything else. -/
def pyIndexStr (j : Json) (k : String) : Except PyExc Json :=
  match j with
  | .obj fs =>
    match Json.lookupField fs k with
    | some v => .ok v
    | none => .error (.keyError k)
  | .str _ => .error (.typeError "string indices must be integers")
  | .arr _ => .error (.typeError "list indices must be integers")
  | _ => .error (.typeError "object is not subscriptable")

/-- Python `x[0]`: list head, first character of a string, `KeyError` for
dicts (JSON object keys are strings, so integer `0` is never a key),
`TypeError` otherwise. -/
def pyIndexZero (j : Json) : Except PyExc Json :=
  match j with
  | .arr (x :: _) => .ok x
  | .arr [] => .error (.indexError "list index out of range")
  | .str s =>
    match s.data with
    | c :: _ => .ok (.str (String.mk [c]))
    | [] => .error (.indexError "string index out of range")
  | .obj _ => .error (.keyError "0")
  | _ => .error (.typeError "object is not subscriptable")

/-- Python `len(x)`: `TypeError` for unsized values. -/
def pyLen (j : Json) : Except PyExc ℕ :=
  match j with
  | .arr xs => .ok xs.length
  | .str s => .ok s.length
  | .obj fs => .ok fs.length
  | _ => .error (.typeError "object has no len")

/-- Python `.get(k, d)`: defaulted dict lookup; `AttributeError` on
anything that is not a dict. -/
def pyGetDefault (j : Json) (k : String) (d : Json) : Except PyExc Json :=
  match j with
  | .obj fs => .ok ((Json.lookupField fs k).getD d)
  | _ => .error (.attributeError "object has no attribute get")

namespace ResponseResponse

/-- The `for output_item in self.output` loop of `content`
(models.py 135-141): find the first entry whose `type` is `"message"`
and whose (truthy, non-empty) `content` list starts with an item holding
a `text` key; any sub-condition failing moves on to the next entry. A
non-dict entry makes `output_item.get` raise `AttributeError`. -/
def contentLoop : List Json → Except PyExc (Option Json)
  | [] => .ok none
  | item :: rest =>
    match item with
    | .obj fs =>
      let isMsg : Bool := match Json.lookupField fs "type" with
        | some (.str t) => t == "message"
        | _ => false
      match (if isMsg then Json.lookupField fs "content" else none) with
      | some cl =>
        if cl.truthy then
          match pyLen cl with
          | .error e => .error e
          | .ok n =>
            if n > 0 then
              match pyIndexZero cl with
              | .error e => .error e
              | .ok ci =>
                match pyContains ci "text" with
                | .error e => .error e
                | .ok b =>
                  if b then
                    match pyIndexStr ci "text" with
                    | .error e => .error e
                    | .ok v => .ok (some v)
                  else contentLoop rest
            else contentLoop rest
        else contentLoop rest
      | none => contentLoop rest
    | _ => .error (.attributeError "object has no attribute get")

/-- The single-item branch of `content` (models.py 144-149): read
`output[0]`'s first content item's `text`; fall through (`none`) when the
shape does not match. -/
def contentFromFirst (item : Json) : Except PyExc (Option Json) :=
  match pyContains item "content" with
  | .error e => .error e
  | .ok b =>
    if b then
      match pyIndexStr item "content" with
      | .error e => .error e
      | .ok cl =>
        match pyLen cl with
        | .error e => .error e
        | .ok n =>
          if n > 0 then
            match pyIndexZero cl with
            | .error e => .error e
            | .ok ci =>
              match pyContains ci "text" with
              | .error e => .error e
              | .ok bt =>
                if bt then
                  match pyIndexStr ci "text" with
                  | .error e => .error e
                  | .ok v => .ok (some v)
                else .ok none
          else .ok none
    else .ok none

/-- Embeds `ResponseResponse.content` (models.py 128-162): the four extraction
strategies in source order, ending in `''`. Python exceptions raised on
ill-shaped data surface in the `Except` error channel. -/
def content (r : ResponseResponse) : Except PyExc Json :=
  -- `if self.output and len(self.output) > 1:` then scan for a message entry
  match (match r.output with
         | some out => if out.length > 1 then contentLoop out else .ok none
         | none => Except.ok none) with
  | .error e => .error e
  | .ok (some v) => .ok v
  | .ok none =>
    -- `if self.output and len(self.output) > 0:` then read output[0]
    match (match r.output with
           | some (item :: _) => contentFromFirst item
           | _ => Except.ok none) with
    | .error e => .error e
    | .ok (some v) => .ok v
    | .ok none =>
      -- `if hasattr(self, 'text') and self.text:` (truthiness, then
      -- string / dict-with-content dispatch)
      match (match r.text with
             | some (.inl s) => if s ≠ "" then some (Json.str s) else none
             | some (.inr fs) =>
               if !fs.isEmpty then Json.lookupField fs "content" else none
             | none => none) with
      | some v => .ok v
      | none =>
        -- `if hasattr(self, 'choices') and self.choices ...` — `choices` is
        -- not a declared field, so this needs an instance carrying one
        match r.choices with
        | some (c0 :: _) =>
          (match pyGetDefault c0 "message" (Json.obj []) with
           | .error e => .error e
           | .ok m =>
             match pyGetDefault m "content" (Json.str "") with
             | .error e => .error e
             | .ok v => .ok v)
        | _ => .ok (.str "")
    -- `return ''`

/-- The scan of `ResponseResponse.tool_calls` (models.py 200-210) over the
output list: entries whose `type` is `web_search_call` or `function_call`
become `ToolCall`s with `function` and `hosted_tool` both taken from the
entry's `action` field (default `{}`). A non-dict entry raises
`AttributeError`; a non-string `id` or non-dict `action` fails `ToolCall`
validation. -/
def toolCallsLoop : List Json → Except PyExc (List ToolCall)
  | [] => .ok []
  | item :: rest =>
    match item with
    | .obj fs =>
      let isCall : Bool := match Json.lookupField fs "type" with
        | some (.str s) => s == "web_search_call" || s == "function_call"
        | _ => false
      if isCall then
        match (Json.lookupField fs "id").getD (.str "") with
        | .str idStr =>
          (match (Json.lookupField fs "type").getD (.str "") with
           | .str typeStr =>
             (match (Json.lookupField fs "action").getD (.obj []) with
              | .obj afs =>
                (match toolCallsLoop rest with
                 | .error e => .error e
                 | .ok tcs => .ok (⟨idStr, typeStr, some afs, some afs⟩ :: tcs))
              | _ => .error (.pydanticValidationError
                  "function: Input should be a valid dictionary"))
           | _ => .error (.pydanticValidationError "type: Input should be a valid string"))
        | _ => .error (.pydanticValidationError "id: Input should be a valid string")
      else
        toolCallsLoop rest
    | _ => .error (.attributeError "object has no attribute get")

/-- Embeds `ResponseResponse.tool_calls` (models.py 194-212): `None` when
`output` is falsy or when no matching entry exists, otherwise the
collected `ToolCall`s. -/
def tool_calls (r : ResponseResponse) : Except PyExc (Option (List ToolCall)) :=
  match r.output with
  | none => .ok none
  | some [] => .ok none
  | some out =>
    match toolCallsLoop out with
    | .error e => .error e
    | .ok tcs => .ok (if tcs.isEmpty then none else some tcs)

end ResponseResponse

/-! ## Client facade: `generate_response` (client.py 73-176) -/

/-- Embeds `ToolFunction.model_dump(exclude_none=True)`: serialized dict with
`None`-valued fields dropped. -/
def ToolFunction.model_dump (tf : ToolFunction) : Json :=
  .obj ([("name", .str tf.name)] ++
    (match tf.description with
     | some d => [("description", .str d)]
     | none => []) ++
    [("parameters", .obj tf.parameters)])

/-- Embeds `Tool.model_dump(exclude_none=True)` as used at client.py 155. -/
def Tool.model_dump (t : Tool) : Json :=
  .obj ([("type", .str t.type)] ++
    (match t.function with
     | some f => [("function", f.model_dump)]
     | none => []))

/-- The arguments of one `generate_response` call that influence the
request payload and control flow. `response_format` is the
keyword-argument form, validated inside the call as
`ResponseFormat(**response_format)`; `tools` entries likewise pass
through `Tool(**tool)`. -/
structure GenerateArgs where
  prompt : String
  response_format : ResponseFormat
  model : String := "gpt-4o"
  temperature : Option ℚ := none
  top_p : Option ℚ := none
  effort : Option String := none
  verbosity : Option String := none
  tools : Option (List Tool) := none
  tool_choice : Option Json := none
  previous_response_id : Option String := none

namespace OpenAIResponsesAPI

/-- Replace the value stored under key `k` (Python
`request_data["text"]["verbosity"] = verbosity` mutates the dict in
place, keeping key order). -/
def updValue (d : List (String × Json)) (k : String) (f : Json → Json) :
    List (String × Json) :=
  d.map fun kv => if kv.1 = k then (kv.1, f kv.2) else kv

/-- Append a field to a JSON object (no-op on non-objects, which the
builder never stores under `"text"`). -/
def addObjField (j : Json) (k : String) (v : Json) : Json :=
  match j with
  | .obj fs => .obj (fs ++ [(k, v)])
  | _ => j

/-- The base `request_data` fields (client.py 123-131): `model`, `input`,
and the fixed `text.format.type = "text"` marker. -/
def baseFields (a : GenerateArgs) : List (String × Json) :=
  [("model", .str a.model), ("input", .str a.prompt),
   ("text", .obj [("format", .obj [("type", .str "text")])])]

/-- The `reasoning.effort` entry added for `gpt-5` when `effort` is set
(client.py 136-139). -/
def effortSeg (a : GenerateArgs) : List (String × Json) :=
  match a.effort with
  | some e => [("reasoning", .obj [("effort", .str e)])]
  | none => []

/-- The `temperature` entry added for non-`gpt-5` models (client.py 144-145). -/
def temperatureSeg (a : GenerateArgs) : List (String × Json) :=
  match a.temperature with
  | some t => [("temperature", .num t)]
  | none => []

/-- The `top_p` entry added for non-`gpt-5` models (client.py 146-147). -/
def topPSeg (a : GenerateArgs) : List (String × Json) :=
  match a.top_p with
  | some t => [("top_p", .num t)]
  | none => []

/-- The `previous_response_id` entry behind its truthiness guard
(client.py 150-151). -/
def prevSeg (a : GenerateArgs) : List (String × Json) :=
  match a.previous_response_id with
  | some p => if p ≠ "" then [("previous_response_id", .str p)] else []
  | none => []

/-- The serialized `tools` entry behind its truthiness guard
(client.py 154-155). -/
def toolsSeg (a : GenerateArgs) : List (String × Json) :=
  match a.tools with
  | some ts => if ts.isEmpty then [] else [("tools", .arr (ts.map Tool.model_dump))]
  | none => []

/-- The `tool_choice` entry behind its truthiness guard (client.py 158-159). -/
def toolChoiceSeg (a : GenerateArgs) : List (String × Json) :=
  match a.tool_choice with
  | some tc => if tc.truthy then [("tool_choice", tc)] else []
  | none => []

/-- The `request_data` assembly of `generate_response` (client.py 122-159)
before the final `is not None` sweep: base fields, then the
model-family-conditional block (`gpt-5` → `reasoning.effort` appended and
`text.verbosity` written into the existing `text` dict; anything else →
`temperature` / `top_p`), then `previous_response_id`, `tools` and
`tool_choice`. -/
def buildRequestCore (a : GenerateArgs) : List (String × Json) :=
  (if a.model = "gpt-5" then
     match a.verbosity with
     | some v =>
       updValue (baseFields a ++ effortSeg a) "text"
         (fun j => addObjField j "verbosity" (.str v))
     | none => baseFields a ++ effortSeg a
   else
     baseFields a ++ temperatureSeg a ++ topPSeg a)
  ++ prevSeg a ++ toolsSeg a ++ toolChoiceSeg a

/-- The full `request_data` (client.py 122-162), including the final
`{k: v for k, v in request_data.items() if v is not None}` sweep. -/
def buildRequest (a : GenerateArgs) : List (String × Json) :=
  (buildRequestCore a).filter fun kv => !kv.2.isNull

/-- The tools normalization at client.py 116-120: entries given as plain
dicts pass through `Tool(**tool)`, running `Tool.validate_type`; entries
already constructed as `Tool` objects went through the same validator at
construction time, so every entry is validated identically. -/
def validateTools : Option (List Tool) → Except PyExc (Option (List Tool))
  | none => .ok none
  | some ts => (ts.mapM Tool.validate).map some

/-- The `except` chain at client.py 171-176: `except ValidationError`
(the library's own class) re-raises unchanged; any other exception is
re-raised when it is an `OpenAIResponsesError` and otherwise wrapped as
`APIError(f"Unexpected error: {str(e)}")`. -/
def wrapGenerateError (e : PyExc) : PyExc :=
  match e with
  | .validationError m => .validationError m
  | _ =>
    if e.isOpenAIResponsesError then e
    else .apiError ("Unexpected error: " ++ e.msgOf)

/-- Observable result of one `generate_response` call: the returned
`ResponseResponse` or raised exception, the number of HTTP attempts, the
total slept seconds, and the payload handed to `_make_request` (`none`
when the call failed before building one). -/
structure GenerateResult where
  result : Except PyExc ResponseResponse
  httpAttempts : ℕ
  sleepTotal : ℕ
  payload : Option (List (String × Json))

/-- Embeds `OpenAIResponsesAPI.generate_response` (client.py 110-176): validate
the response format and tools, build the request, run `_make_request`
against the abstract server `script`, parse the 200 body with
`ResponseResponse(**response)`, and push every raised exception through
the `except` chain. -/
def generate_response (a : GenerateArgs) (maxRetries : ℕ) (script : ℕ → Outcome) :
    GenerateResult :=
  match ResponseFormat.validate a.response_format with
  | .error e => ⟨.error (wrapGenerateError e), 0, 0, none⟩
  | .ok _fmt =>
    match validateTools a.tools with
    | .error e => ⟨.error (wrapGenerateError e), 0, 0, none⟩
    | .ok tools2 =>
      let payload := buildRequest { a with tools := tools2 }
      let run := make_request maxRetries script
      match run.result with
      | .error e => ⟨.error (wrapGenerateError e), run.attempts, run.sleepTotal, some payload⟩
      | .ok body =>
        match parseResponseResponse body with
        | .error e => ⟨.error (wrapGenerateError e), run.attempts, run.sleepTotal, some payload⟩
        | .ok resp => ⟨.ok resp, run.attempts, run.sleepTotal, some payload⟩

/-- Presence of the classic-family `temperature` key in a payload. -/
def hasTemperatureKey (d : List (String × Json)) : Bool :=
  (Json.lookupField d "temperature").isSome

/-- Presence of the classic-family `top_p` key in a payload. -/
def hasTopPKey (d : List (String × Json)) : Bool :=
  (Json.lookupField d "top_p").isSome

/-- Presence of the reasoning-family `effort` key (inside the `reasoning`
block) in a payload. -/
def hasEffortKey (d : List (String × Json)) : Bool :=
  match Json.lookupField d "reasoning" with
  | some (.obj fs) => (Json.lookupField fs "effort").isSome
  | _ => false

/-- Presence of the reasoning-family `verbosity` key (inside the `text`
block) in a payload. -/
def hasVerbosityKey (d : List (String × Json)) : Bool :=
  match Json.lookupField d "text" with
  | some (.obj fs) => (Json.lookupField fs "verbosity").isSome
  | _ => false

end OpenAIResponsesAPI

/-! ## Spec-side decoding strategies (for the refinement statement of the
content property) -/

namespace ResponseResponse

/-- Shape condition met by real Responses-API replies: every output entry
is a JSON object, and the `content` field of such an entry, when present,
is an array of JSON objects. -/
def wellShapedItem : Json → Prop
  | .obj fs =>
    match Json.lookupField fs "content" with
    | some (.arr xs) => ∀ x ∈ xs, ∃ gs, x = Json.obj gs
    | some _ => False
    | none => True
  | _ => False

/-- Holds when `wellShapedItem` holds for every entry of an `output` list. -/
def wellShapedOutput : Option (List Json) → Prop
  | none => True
  | some out => ∀ item ∈ out, wellShapedItem item

/-- Modelled from the spec (§4.4 strategy 1): the `text` of a
`message`-typed output entry whose non-empty content list starts with an
object carrying a `text` key. -/
def messageText? : Json → Option Json
  | .obj fs =>
    match Json.lookupField fs "type", Json.lookupField fs "content" with
    | some (.str t), some (.arr (c :: _)) =>
      if t = "message" then
        match c with
        | .obj gs => Json.lookupField gs "text"
        | _ => none
      else none
    | _, _ => none
  | _ => none

/-- Modelled from the spec (§4.4 strategy 2): `output[0]`'s first content
item's `text`. -/
def firstContentText? : Json → Option Json
  | .obj fs =>
    match Json.lookupField fs "content" with
    | some (.arr (c :: _)) =>
      (match c with
       | .obj gs => Json.lookupField gs "text"
       | _ => none)
    | _ => none
  | _ => none

/-- Modelled from the spec (§4.4 strategy 3): the top-level `text` field —
a non-empty string itself, or a non-empty dict's `content` entry. -/
def textFieldContent? : Option (String ⊕ List (String × Json)) → Option Json
  | some (.inl s) => if s ≠ "" then some (.str s) else none
  | some (.inr fs) => if !fs.isEmpty then Json.lookupField fs "content" else none
  | none => none

/-- Modelled from the spec (§4.4): first-match-wins over the ordered
extraction strategies, defaulting to the empty string. The fourth
(`choices`) strategy contributes nothing on any parsed instance —
`choices` is always `none` — and the accompanying theorem carries
`r.choices = none`. -/
def contentSpec (r : ResponseResponse) : Json :=
  ((match r.output with
    | some out => if out.length > 1 then out.findSome? messageText? else none
    | none => none) <|>
   (match r.output with
    | some (item :: _) => firstContentText? item
    | _ => none) <|>
   textFieldContent? r.text).getD (.str "")

end ResponseResponse

/-! ## Concrete scenario material used by the statements -/

namespace OpenAIResponsesAPI

/-- Server script: 429 with `Retry-After: 1` on the first attempt, then
200 with `body`. -/
def script429then200 (body : Json) : ℕ → Outcome := fun n =>
  if n = 0 then .resp 429 (some 1) (Json.obj []) true
  else .resp 200 none body true

/-- Server script: HTTP 429 on every attempt, with `Retry-After` header
`retryAfter`. -/
def script429always (retryAfter : Option ℕ) : ℕ → Outcome := fun _ =>
  .resp 429 retryAfter (Json.obj []) true

/-- Server script: HTTP 401 on every attempt. -/
def script401 : ℕ → Outcome := fun _ => .resp 401 none (Json.obj []) true

/-- Server script: HTTP 402 on every attempt. -/
def script402 : ℕ → Outcome := fun _ => .resp 402 none (Json.obj []) true

/-- True when a loop-body step result is not the post-loop fallthrough
error (no branch of the body can produce it). -/
def stepNotFallthrough : StepResult → Bool
  | .done r => !(isFallthroughResult r)
  | .retryAfterSleep _ => true

end OpenAIResponsesAPI

/-- Arguments to `generate_response` carrying the invalid response type
`memo`. -/
def c1Args : GenerateArgs := { prompt := "Hello", response_format := { type := "memo" } }

/-- Arguments to `generate_response` with no generation parameters at all. -/
def c3NoParams : GenerateArgs := { prompt := "Hi", response_format := { type := "email" } }

/-- Arguments to `generate_response` for the reasoning family with `effort`
set. -/
def c3Gpt5Args : GenerateArgs :=
  { prompt := "Hi", response_format := { type := "email" },
    model := "gpt-5", effort := some "high" }

/-- Arguments to `generate_response` for a classic model with `temperature`
set. -/
def c3ClassicArgs : GenerateArgs :=
  { prompt := "Hi", response_format := { type := "email" },
    temperature := some (7 / 10) }

/-- The output list of the tool-augmented raw reply of the spec's test
bullet: a `function_call` entry first, the `message` entry second. -/
def c4Output : List Json :=
  [.obj [("type", .str "function_call"), ("id", .str "tc1"),
         ("action", .obj [("name", .str "get_weather")])],
   .obj [("type", .str "message"),
         ("content", .arr [.obj [("text", .str "it is sunny")]])]]

/-- That raw reply, with the `id` field pydantic requires supplied
(`content`/`tool_calls` never read it). -/
def c4Raw : Json := .obj [("id", .str "resp_c4"), ("output", .arr c4Output)]

/-- The decoded form of `c4Raw`. -/
def c4Resp : ResponseResponse := { id := "resp_c4", output := some c4Output }

/-- A raw reply whose output entries are numbers, not JSON objects. -/
def c7Raw : Json := .obj [("id", .str "resp_err"), ("output", .arr [.num 1, .num 2])]

/-- A well-shaped message output entry. -/
def c7Item : Json :=
  .obj [("type", .str "message"), ("content", .arr [.obj [("text", .str "hi")]])]

/-- A decoded reply holding one well-shaped message entry. -/
def c7Resp : ResponseResponse := { id := "r1", output := some [c7Item] }

/-- A raw reply carrying only a `choices`-style body: no `output`, no
`text`, and `choices[0].message.content == "hi"`. -/
def c8Raw : Json :=
  .obj [("id", .str "resp_choicy"),
        ("choices", .arr [.obj [("message", .obj [("content", .str "hi")])]])]

/-- What `ResponseResponse(**c8Raw)` produces: the undeclared `choices`
key is dropped. -/
def c8Parsed : ResponseResponse := { id := "resp_choicy" }

/-- A mixed-case valid response format. -/
def c9Input : ResponseFormat :=
  { type := "Email", style := some "Professional", tone := some "Polite" }

/-- Its canonicalized (lowercased) validated form. -/
def c9Output : ResponseFormat :=
  { type := "email", style := some "professional", tone := some "polite" }

/-! ## Theorems -/

namespace OpenAIResponsesAPI

/-- The message of the request-failure `APIError` never equals the
post-loop message, whatever the wrapped cause says. -/
theorem requestFailedNe (msg : String) :
    "Request failed: " ++ msg ≠ "Request failed after all retries" := by
  intro h
  have h2 : ("Request failed: " ++ msg).data = ("Request failed after all retries").data :=
    congrArg String.data h
  rw [String.data_append] at h2
  have h3 := congrArg (fun l => l.take 15) h2
  simp at h3

/-- The only exception `errorMessage` itself raises is `AttributeError`. -/
theorem errorMessage_error (errData : Json) (status : ℕ) (e : PyExc)
    (he : errorMessage errData status = .error e) : ∃ m, e = .attributeError m := by
  unfold errorMessage at he
  split at he
  · split at he
    · exact absurd he (by simp)
    · exact ⟨_, (Except.error.inj he).symm⟩
  · exact ⟨_, (Except.error.inj he).symm⟩

/-- The loop body only continues to another attempt while
`attempt < max_retries`. -/
theorem requestStep_retry_lt (mr attempt s : ℕ) (oc : Outcome)
    (h : requestStep mr attempt oc = .retryAfterSleep s) : attempt < mr := by
  cases oc with
  | resp status ra body hc =>
    simp only [requestStep] at h
    split_ifs at h <;> first | assumption | simp at h | (split at h <;> simp at h)
  | timeout =>
    simp only [requestStep] at h
    split_ifs at h <;> assumption
  | requestError m =>
    simp only [requestStep] at h
    split_ifs at h <;> assumption

/-- No branch of the loop body produces the post-loop fallthrough error. -/
theorem requestStep_not_fallthrough (mr attempt : ℕ) (oc : Outcome) :
    stepNotFallthrough (requestStep mr attempt oc) = true := by
  cases oc with
  | resp status ra body hc =>
    simp only [requestStep]
    split_ifs <;> try rfl
    split
    · rfl
    · rename_i e he
      rcases errorMessage_error _ _ _ he with ⟨m, rfl⟩
      rfl
  | timeout =>
    simp only [requestStep]
    split_ifs <;> rfl
  | requestError m =>
    simp only [requestStep]
    split_ifs
    · rfl
    · simp only [stepNotFallthrough, isFallthroughResult, Bool.not_eq_true']
      rw [beq_eq_false_iff_ne]
      exact requestFailedNe m

/-- While at least one loop iteration remains, the run never ends in the
fallthrough error. -/
theorem loopNoFallthrough (mr : ℕ) (script : ℕ → Outcome) :
    ∀ fuel attempt attempts slp, attempt + fuel = mr + 1 → attempt ≤ mr →
      hitFallthrough (makeRequestLoop mr script fuel attempt attempts slp) = false := by
  intro fuel
  induction fuel with
  | zero => intro attempt attempts slp h1 h2; omega
  | succ f ih =>
    intro attempt attempts slp h1 h2
    unfold makeRequestLoop
    cases hstep : requestStep mr attempt (script attempt) with
    | done r =>
      have hnf := requestStep_not_fallthrough mr attempt (script attempt)
      rw [hstep] at hnf
      simpa [stepNotFallthrough, hitFallthrough, Bool.not_eq_true'] using hnf
    | retryAfterSleep s =>
      have hlt := requestStep_retry_lt mr attempt s (script attempt) hstep
      exact ih (attempt + 1) (attempts + 1) (slp + s) (by omega) (by omega)

/-- Claim C10: the final `raise APIError("Request failed after all
retries")` after the retry loop in `_make_request` is unreachable — for
every `max_retries` and every sequence of server responses and network
failures, the run ends in a loop-body `return` or `raise`, never in the
post-loop fallthrough. -/
theorem c10_post_loop_raise_unreachable (maxRetries : ℕ) (script : ℕ → Outcome) :
    hitFallthrough (make_request maxRetries script) = false :=
  loopNoFallthrough maxRetries script (maxRetries + 1) 0 0 0 (by omega) (by omega)

/-- Under an all-429 server, every remaining iteration retries until the
last one raises `RateLimitError`, sleeping the `Retry-After` value
(default 60) before each retry. -/
theorem loop429 (mr : ℕ) (ra : Option ℕ) :
    ∀ fuel attempt attempts slp, attempt + fuel = mr + 1 → attempt ≤ mr →
      makeRequestLoop mr (script429always ra) fuel attempt attempts slp =
        ⟨.error (.rateLimitError "Rate limit exceeded."), attempts + fuel,
         slp + (fuel - 1) * ra.getD 60⟩ := by
  intro fuel
  induction fuel with
  | zero => intro attempt attempts slp h1 h2; omega
  | succ f ih =>
    intro attempt attempts slp h1 h2
    unfold makeRequestLoop
    by_cases hlt : attempt < mr
    · have hstep : requestStep mr attempt (script429always ra attempt) =
          .retryAfterSleep (ra.getD 60) := by
        simp [requestStep, script429always, hlt]
      obtain ⟨g, rfl⟩ : ∃ g, f = g + 1 := ⟨f - 1, by omega⟩
      simp only [hstep]
      rw [ih (attempt + 1) (attempts + 1) (slp + ra.getD 60) (by omega) (by omega)]
      simp only [RunResult.mk.injEq, Nat.add_sub_cancel, true_and]
      constructor
      · omega
      · ring
    · have hstep : requestStep mr attempt (script429always ra attempt) =
          .done (.error (.rateLimitError "Rate limit exceeded.")) := by
        simp [requestStep, script429always, hlt]
      simp only [hstep]
      have hf : f = 0 := by omega
      subst hf
      simp

/-- Claim C2: a 429 with `Retry-After: 1` followed by a 200 makes
`_make_request` return the decoded 200 body after exactly one retry
(two HTTP attempts) having slept exactly 1 second (hence ≥ 1s); a 429 on
every attempt makes it raise `RateLimitError` after exactly
`max_retries + 1` HTTP attempts, sleeping the `Retry-After` value
(default 60 when the header is absent) before each of the `max_retries`
retries. -/
theorem c2_rate_limit_retry_and_exhaustion :
    (∀ (mr : ℕ) (body : Json), 1 ≤ mr →
       make_request mr (script429then200 body) = ⟨.ok body, 2, 1⟩) ∧
    (∀ (mr : ℕ) (ra : Option ℕ),
       make_request mr (script429always ra) =
         ⟨.error (.rateLimitError "Rate limit exceeded."), mr + 1, mr * ra.getD 60⟩) := by
  constructor
  · intro mr body hmr
    obtain ⟨k, rfl⟩ : ∃ k, mr = k + 1 := ⟨mr - 1, by omega⟩
    show makeRequestLoop (k + 1) (script429then200 body) (k + 1 + 1) 0 0 0 = _
    unfold makeRequestLoop
    have h0 : requestStep (k + 1) 0 (script429then200 body 0) = .retryAfterSleep 1 := by
      simp [requestStep, script429then200]
    simp only [h0]
    unfold makeRequestLoop
    have h1 : requestStep (k + 1) 1 (script429then200 body 1) = .done (.ok body) := by
      simp [requestStep, script429then200]
    simp only [h1]
  · intro mr ra
    show makeRequestLoop mr (script429always ra) (mr + 1) 0 0 0 = _
    rw [loop429 mr ra (mr + 1) 0 0 0 (by omega) (by omega)]
    simp

/-- Witness for C2 at `max_retries = 3` (the client default). -/
theorem c2_rate_limit_retry_and_exhaustion_witness :
    1 ≤ 3 ∧
      make_request 3 (script429then200 (Json.str "done")) = ⟨.ok (.str "done"), 2, 1⟩ :=
  ⟨by decide, c2_rate_limit_retry_and_exhaustion.1 3 (Json.str "done") (by decide)⟩

/-- Claim C5: a 401 response makes `_make_request` raise
`AuthenticationError` after exactly one HTTP attempt with no sleep, and a
402 response makes it raise `QuotaExceededError` after exactly one HTTP
attempt, whatever `max_retries` is and whatever the server would have
answered later. -/
theorem c5_auth_quota_terminal_single_attempt (mr : ℕ) (script : ℕ → Outcome)
    (ra : Option ℕ) (body : Json) (hc : Bool) :
    (script 0 = .resp 401 ra body hc →
      make_request mr script =
        ⟨.error (.authenticationError "Invalid API key or authentication failed."), 1, 0⟩) ∧
    (script 0 = .resp 402 ra body hc →
      make_request mr script = ⟨.error (.quotaExceededError "Quota exceeded."), 1, 0⟩) := by
  constructor <;>
    · intro h
      show makeRequestLoop mr script (mr + 1) 0 0 0 = _
      unfold makeRequestLoop
      rw [h]
      simp [requestStep]

/-- Witness for C5 at `max_retries = 3` with dedicated 401/402 servers. -/
theorem c5_auth_quota_terminal_single_attempt_witness :
    script401 0 = .resp 401 none (Json.obj []) true ∧
    script402 0 = .resp 402 none (Json.obj []) true ∧
    make_request 3 script401 =
      ⟨.error (.authenticationError "Invalid API key or authentication failed."), 1, 0⟩ ∧
    make_request 3 script402 = ⟨.error (.quotaExceededError "Quota exceeded."), 1, 0⟩ :=
  ⟨rfl, rfl,
   (c5_auth_quota_terminal_single_attempt 3 script401 none (Json.obj []) true).1 rfl,
   (c5_auth_quota_terminal_single_attempt 3 script402 none (Json.obj []) true).2 rfl⟩

end OpenAIResponsesAPI

/-- A successful `lookupField` result is one of the stored pairs. -/
theorem lookupField_mem {d : List (String × Json)} {k : String} {v : Json}
    (h : Json.lookupField d k = some v) : (k, v) ∈ d := by
  induction d with
  | nil => cases h
  | cons kv rest ih =>
    obtain ⟨k1, v1⟩ := kv
    simp only [Json.lookupField] at h
    split at h
    · cases h; subst_vars; simp
    · exact List.mem_cons_of_mem _ (ih h)

/-- Truthy JSON values are never `null`. -/
theorem truthy_not_null {j : Json} (h : j.truthy = true) : j.isNull = false := by
  cases j <;> simp_all [Json.truthy, Json.isNull]

namespace OpenAIResponsesAPI

/-- The base segment carries keys `model`, `input`, `text`, never null. -/
theorem mem_baseFields {a : GenerateArgs} {kv : String × Json} (h : kv ∈ baseFields a) :
    (kv.1 = "model" ∨ kv.1 = "input" ∨ kv.1 = "text") ∧ kv.2.isNull = false := by
  simp only [baseFields, List.mem_cons, List.not_mem_nil, or_false] at h
  rcases h with rfl | rfl | rfl <;> simp [Json.isNull]

/-- The effort segment only ever carries the `reasoning` key. -/
theorem mem_effortSeg {a : GenerateArgs} {kv : String × Json} (h : kv ∈ effortSeg a) :
    kv.1 = "reasoning" ∧ kv.2.isNull = false := by
  rcases he : a.effort with _ | e <;> simp only [effortSeg, he] at h
  · exact absurd h (List.not_mem_nil kv)
  · cases h with
    | head => exact ⟨rfl, rfl⟩
    | tail _ h2 => exact absurd h2 (List.not_mem_nil _)

/-- The temperature segment only ever carries the `temperature` key. -/
theorem mem_temperatureSeg {a : GenerateArgs} {kv : String × Json}
    (h : kv ∈ temperatureSeg a) : kv.1 = "temperature" ∧ kv.2.isNull = false := by
  rcases ht : a.temperature with _ | t <;> simp only [temperatureSeg, ht] at h
  · exact absurd h (List.not_mem_nil kv)
  · cases h with
    | head => exact ⟨rfl, rfl⟩
    | tail _ h2 => exact absurd h2 (List.not_mem_nil _)

/-- The top-p segment only ever carries the `top_p` key. -/
theorem mem_topPSeg {a : GenerateArgs} {kv : String × Json}
    (h : kv ∈ topPSeg a) : kv.1 = "top_p" ∧ kv.2.isNull = false := by
  rcases ht : a.top_p with _ | t <;> simp only [topPSeg, ht] at h
  · exact absurd h (List.not_mem_nil kv)
  · cases h with
    | head => exact ⟨rfl, rfl⟩
    | tail _ h2 => exact absurd h2 (List.not_mem_nil _)

/-- The continuation segment only carries `previous_response_id`. -/
theorem mem_prevSeg {a : GenerateArgs} {kv : String × Json}
    (h : kv ∈ prevSeg a) : kv.1 = "previous_response_id" ∧ kv.2.isNull = false := by
  rcases hp : a.previous_response_id with _ | p <;> simp only [prevSeg, hp] at h
  · exact absurd h (List.not_mem_nil kv)
  · by_cases hne : p ≠ ""
    · rw [if_pos hne] at h
      cases h with
      | head => exact ⟨rfl, rfl⟩
      | tail _ h2 => exact absurd h2 (List.not_mem_nil _)
    · rw [if_neg hne] at h
      exact absurd h (List.not_mem_nil kv)

/-- The tools segment only carries the `tools` key. -/
theorem mem_toolsSeg {a : GenerateArgs} {kv : String × Json}
    (h : kv ∈ toolsSeg a) : kv.1 = "tools" ∧ kv.2.isNull = false := by
  rcases ht : a.tools with _ | ts <;> simp only [toolsSeg, ht] at h
  · exact absurd h (List.not_mem_nil kv)
  · by_cases hte : ts.isEmpty
    · rw [if_pos hte] at h
      exact absurd h (List.not_mem_nil kv)
    · rw [if_neg hte] at h
      cases h with
      | head => exact ⟨rfl, rfl⟩
      | tail _ h2 => exact absurd h2 (List.not_mem_nil _)

/-- The tool-choice segment only carries the `tool_choice` key, and only
a truthy (hence non-null) value. -/
theorem mem_toolChoiceSeg {a : GenerateArgs} {kv : String × Json}
    (h : kv ∈ toolChoiceSeg a) : kv.1 = "tool_choice" ∧ kv.2.isNull = false := by
  rcases ht : a.tool_choice with _ | tc <;> simp only [toolChoiceSeg, ht] at h
  · exact absurd h (List.not_mem_nil kv)
  · by_cases htr : tc.truthy
    · rw [if_pos htr] at h
      cases h with
      | head => exact ⟨rfl, truthy_not_null htr⟩
      | tail _ h2 => exact absurd h2 (List.not_mem_nil _)
    · rw [if_neg htr] at h
      exact absurd h (List.not_mem_nil kv)

/-- Appending a field keeps an object non-null. -/
theorem addObjField_not_null {j : Json} {k : String} {v : Json}
    (h : j.isNull = false) : (addObjField j k v).isNull = false := by
  cases j <;> simp_all [addObjField, Json.isNull]

/-- The map `updValue` keeps the stored keys and either keeps or maps each value. -/
theorem fst_mem_updValue {d : List (String × Json)} {k : String} {f : Json → Json}
    {kv : String × Json} (h : kv ∈ updValue d k f) :
    ∃ kv0 ∈ d, kv.1 = kv0.1 ∧ (kv.2 = kv0.2 ∨ kv.2 = f kv0.2) := by
  unfold updValue at h
  rcases List.mem_map.1 h with ⟨kv0, h0, heq⟩
  by_cases hk : kv0.1 = k
  · rw [if_pos hk] at heq
    subst heq
    exact ⟨kv0, h0, rfl, Or.inr rfl⟩
  · rw [if_neg hk] at heq
    subst heq
    exact ⟨kv0, h0, rfl, Or.inl rfl⟩

/-- Key inventory and non-null values of the assembled request: classic
keys only for non-`gpt-5` models, `reasoning` only for `gpt-5`. -/
theorem mem_buildRequestCore {a : GenerateArgs} {kv : String × Json}
    (h : kv ∈ buildRequestCore a) :
    (kv.1 = "model" ∨ kv.1 = "input" ∨ kv.1 = "text" ∨
     (a.model = "gpt-5" ∧ kv.1 = "reasoning") ∨
     (a.model ≠ "gpt-5" ∧ (kv.1 = "temperature" ∨ kv.1 = "top_p")) ∨
     kv.1 = "previous_response_id" ∨ kv.1 = "tools" ∨ kv.1 = "tool_choice") ∧
    kv.2.isNull = false := by
  unfold buildRequestCore at h
  simp only [List.mem_append] at h
  rcases h with ((h | h) | h) | h
  · split at h
    · rename_i h5
      revert h
      split
      · rename_i v hv
        intro h
        rcases fst_mem_updValue h with ⟨kv0, h0, hfst, hsnd⟩
        rcases List.mem_append.1 h0 with h0 | h0
        · rcases mem_baseFields h0 with ⟨hk, hn⟩
          refine ⟨by rw [hfst]; tauto, ?_⟩
          rcases hsnd with h2 | h2 <;> rw [h2]
          · exact hn
          · exact addObjField_not_null hn
        · rcases mem_effortSeg h0 with ⟨hk, hn⟩
          refine ⟨by rw [hfst]; tauto, ?_⟩
          rcases hsnd with h2 | h2 <;> rw [h2]
          · exact hn
          · exact addObjField_not_null hn
      · intro h
        rcases List.mem_append.1 h with h0 | h0
        · rcases mem_baseFields h0 with ⟨hk, hn⟩
          exact ⟨by tauto, hn⟩
        · rcases mem_effortSeg h0 with ⟨hk, hn⟩
          exact ⟨by tauto, hn⟩
    · rename_i h5
      rcases List.mem_append.1 h with h0 | h0
      · rcases List.mem_append.1 h0 with h1 | h1
        · rcases mem_baseFields h1 with ⟨hk, hn⟩
          exact ⟨by tauto, hn⟩
        · rcases mem_temperatureSeg h1 with ⟨hk, hn⟩
          exact ⟨by tauto, hn⟩
      · rcases mem_topPSeg h0 with ⟨hk, hn⟩
        exact ⟨by tauto, hn⟩
  · rcases mem_prevSeg h with ⟨hk, hn⟩
    exact ⟨by tauto, hn⟩
  · rcases mem_toolsSeg h with ⟨hk, hn⟩
    exact ⟨by tauto, hn⟩
  · rcases mem_toolChoiceSeg h with ⟨hk, hn⟩
    exact ⟨by tauto, hn⟩

/-- A key excluded from the assembled request is not found by lookup. -/
theorem lookup_buildRequest_eq_none {a : GenerateArgs} {k : String}
    (hex : ∀ kv ∈ buildRequestCore a, kv.1 ≠ k) :
    Json.lookupField (buildRequest a) k = none := by
  cases hl : Json.lookupField (buildRequest a) k with
  | none => rfl
  | some v =>
    exact absurd rfl (hex _ (List.mem_filter.1 (lookupField_mem hl)).1)

/-- For non-`gpt-5` models the `text` entry keeps its fixed format-only
value (no `verbosity` is ever written into it). -/
theorem mem_buildRequestCore_text_value {a : GenerateArgs} (h5 : ¬a.model = "gpt-5")
    {kv : String × Json} (h : kv ∈ buildRequestCore a) (ht : kv.1 = "text") :
    kv.2 = Json.obj [("format", Json.obj [("type", Json.str "text")])] := by
  unfold buildRequestCore at h
  rw [if_neg h5] at h
  simp only [List.mem_append] at h
  rcases h with ((h | h) | h) | h
  · rcases h with (h | h) | h
    · cases h with
      | head => simp at ht
      | tail _ h3 =>
        cases h3 with
        | head => simp at ht
        | tail _ h4 =>
          cases h4 with
          | head => rfl
          | tail _ h5x => exact absurd h5x (List.not_mem_nil _)
    · have := (mem_temperatureSeg h).1; simp_all
    · have := (mem_topPSeg h).1; simp_all
  · have := (mem_prevSeg h).1; simp_all
  · have := (mem_toolsSeg h).1; simp_all
  · have := (mem_toolChoiceSeg h).1; simp_all

/-- Payloads for `gpt-5` never contain a `temperature` key. -/
theorem buildRequest_gpt5_no_temperature {a : GenerateArgs} (h5 : a.model = "gpt-5") :
    hasTemperatureKey (buildRequest a) = false := by
  unfold hasTemperatureKey
  rw [lookup_buildRequest_eq_none]
  · rfl
  · intro kv hkv hk
    rcases (mem_buildRequestCore hkv).1 with h | h | h | ⟨_, h⟩ | ⟨hne, h | h⟩ | h | h | h <;>
      simp_all

/-- Payloads for `gpt-5` never contain a `top_p` key. -/
theorem buildRequest_gpt5_no_top_p {a : GenerateArgs} (h5 : a.model = "gpt-5") :
    hasTopPKey (buildRequest a) = false := by
  unfold hasTopPKey
  rw [lookup_buildRequest_eq_none]
  · rfl
  · intro kv hkv hk
    rcases (mem_buildRequestCore hkv).1 with h | h | h | ⟨_, h⟩ | ⟨hne, h | h⟩ | h | h | h <;>
      simp_all

/-- Non-`gpt-5` payloads never contain a `reasoning.effort` key. -/
theorem buildRequest_classic_no_effort {a : GenerateArgs} (h5 : ¬a.model = "gpt-5") :
    hasEffortKey (buildRequest a) = false := by
  unfold hasEffortKey
  rw [lookup_buildRequest_eq_none]
  · intro kv hkv hk
    rcases (mem_buildRequestCore hkv).1 with h | h | h | ⟨hg, h⟩ | ⟨hne, h | h⟩ | h | h | h <;>
      simp_all

/-- Non-`gpt-5` payloads never contain a `text.verbosity` key. -/
theorem buildRequest_classic_no_verbosity {a : GenerateArgs} (h5 : ¬a.model = "gpt-5") :
    hasVerbosityKey (buildRequest a) = false := by
  unfold hasVerbosityKey
  cases hl : Json.lookupField (buildRequest a) "text" with
  | none => rfl
  | some v =>
    have hmem := (List.mem_filter.1 (lookupField_mem hl)).1
    have hv := mem_buildRequestCore_text_value h5 hmem rfl
    simp only at hv
    subst hv
    rfl

end OpenAIResponsesAPI

namespace OpenAIResponsesAPI

/-- Claim C3 counterexample: the claim says exactly one parameter family
appears in any payload, but a `generate_response` call that sets no
generation parameter builds (and sends) a payload containing neither
family. -/
theorem c3_no_family_payload_counterexample :
    hasTemperatureKey (buildRequest c3NoParams) = false ∧
    hasTopPKey (buildRequest c3NoParams) = false ∧
    hasEffortKey (buildRequest c3NoParams) = false ∧
    hasVerbosityKey (buildRequest c3NoParams) = false ∧
    generate_response c3NoParams 3 (fun _ => .resp 200 none (.obj [("id", .str "r1")]) true) =
      ⟨.ok { id := "r1" }, 1, 0, some (buildRequest c3NoParams)⟩ :=
  ⟨rfl, rfl, rfl, rfl, rfl⟩

/-- Claim C3 (amended): for the reasoning family with `effort` set the
payload never contains `temperature`/`top_p` keys; for any other family
with `temperature` set it never contains `effort`/`verbosity` keys; at
most one parameter family appears in any payload (never both); and no
payload key is ever null-filled. -/
theorem c3_at_most_one_parameter_family :
    (∀ a : GenerateArgs, a.model = "gpt-5" → a.effort.isSome →
       hasTemperatureKey (buildRequest a) = false ∧ hasTopPKey (buildRequest a) = false) ∧
    (∀ a : GenerateArgs, a.model ≠ "gpt-5" → a.temperature.isSome →
       hasEffortKey (buildRequest a) = false ∧ hasVerbosityKey (buildRequest a) = false) ∧
    (∀ a : GenerateArgs,
       (hasTemperatureKey (buildRequest a) = true ∨ hasTopPKey (buildRequest a) = true) →
       hasEffortKey (buildRequest a) = false ∧ hasVerbosityKey (buildRequest a) = false) ∧
    (∀ a : GenerateArgs, ∀ kv ∈ buildRequest a, kv.2.isNull = false) := by
  refine ⟨fun a h5 _ => ⟨buildRequest_gpt5_no_temperature h5, buildRequest_gpt5_no_top_p h5⟩,
          fun a h5 _ => ⟨buildRequest_classic_no_effort h5, buildRequest_classic_no_verbosity h5⟩,
          fun a hcl => ?_,
          fun a kv hkv => by simpa using (List.mem_filter.1 hkv).2⟩
  by_cases h5 : a.model = "gpt-5"
  · rcases hcl with hc | hc
    · rw [buildRequest_gpt5_no_temperature h5] at hc; cases hc
    · rw [buildRequest_gpt5_no_top_p h5] at hc; cases hc
  · exact ⟨buildRequest_classic_no_effort h5, buildRequest_classic_no_verbosity h5⟩

/-- Witness for C3 at a `gpt-5`/`effort` call and a classic
`temperature` call. -/
theorem c3_at_most_one_parameter_family_witness :
    c3Gpt5Args.model = "gpt-5" ∧ c3Gpt5Args.effort.isSome = true ∧
    c3ClassicArgs.model ≠ "gpt-5" ∧ c3ClassicArgs.temperature.isSome = true ∧
    (hasTemperatureKey (buildRequest c3Gpt5Args) = false ∧
      hasTopPKey (buildRequest c3Gpt5Args) = false) ∧
    (hasEffortKey (buildRequest c3ClassicArgs) = false ∧
      hasVerbosityKey (buildRequest c3ClassicArgs) = false) :=
  ⟨rfl, rfl, by decide, rfl,
   c3_at_most_one_parameter_family.1 c3Gpt5Args rfl rfl,
   c3_at_most_one_parameter_family.2.1 c3ClassicArgs (by decide) rfl⟩

/-- Claim C1 (evaluating the code at the failing input): calling
`generate_response` with response format type `memo` performs zero HTTP
attempts — validation fails before any network call, whatever the server
script would answer — but the pydantic `ValidationError` does not
propagate: the `except ValidationError` clause names the library's own
class, which pydantic's error is not, so it is wrapped as
`APIError("Unexpected error: ...")` with no payload ever built. -/
theorem c1_invalid_format_pre_network_but_wrapped (maxRetries : ℕ) (script : ℕ → Outcome) :
    generate_response c1Args maxRetries script =
      ⟨.error (.apiError "Unexpected error: Invalid response type. Must be one of: [email, letter, message, response, reply, note]"),
       0, 0, none⟩ := rfl

end OpenAIResponsesAPI

/-- Claim C4: for the tool-augmented raw reply of the claim, `content`
finds the first `message`-typed entry even though it is not the first
output element and equals `"it is sunny"`, and `tool_calls` is a
one-element list with id `tc1`, type `function_call`, and both
`function` and `hosted_tool` populated from the entry's `action` field
(the decode of the full raw reply is also evaluated). -/
theorem c4_tool_reply_decoding :
    parseResponseResponse c4Raw = .ok c4Resp ∧
    c4Resp.content = .ok (.str "it is sunny") ∧
    c4Resp.tool_calls =
      .ok (some [{ id := "tc1", type := "function_call",
                   function := some [("name", .str "get_weather")],
                   hosted_tool := some [("name", .str "get_weather")] }]) :=
  ⟨rfl, rfl, rfl⟩

/-- Claim C6 counterexample: the claim says a `Tool` with type
`"function"` and no `function` payload is rejected, but `Tool.validate_type`
only checks the `type` string, so such a tool passes validation with
`function = None`. -/
theorem c6_function_tool_without_function_counterexample :
    Tool.validate { type := "function", function := none } =
      .ok { type := "function", function := none } ∧
    ({ type := "function", function := none } : Tool).function = none :=
  ⟨rfl, rfl⟩

/-- Claim C6 (amended): every Tool accepted by validation has its type in
the fixed enumeration and is returned unchanged; the `function` field is
not required when `type == "function"`. -/
theorem c6_accepted_tool_types_enumerated (t u : Tool) (h : Tool.validate t = .ok u) :
    u.type ∈ Tool.valid_types ∧ u = t := by
  unfold Tool.validate at h
  split at h
  · cases h; exact ⟨by assumption, rfl⟩
  · cases h

/-- Witness for C6 at a hosted tool. -/
theorem c6_accepted_tool_types_enumerated_witness :
    Tool.validate { type := "mcp", function := none } =
      .ok { type := "mcp", function := none } ∧
    ({ type := "mcp", function := none } : Tool).type ∈ Tool.valid_types :=
  ⟨rfl, (c6_accepted_tool_types_enumerated { type := "mcp", function := none }
           { type := "mcp", function := none } rfl).1⟩

/-- The six valid response types are already lowercase. -/
theorem pyLower_fix_types : ∀ s ∈ ResponseFormat.valid_types, pyLower s = s := by decide

/-- The five valid styles are already lowercase. -/
theorem pyLower_fix_styles : ∀ s ∈ ResponseFormat.valid_styles, pyLower s = s := by decide

/-- The seven valid tones are already lowercase. -/
theorem pyLower_fix_tones : ∀ s ∈ ResponseFormat.valid_tones, pyLower s = s := by decide

/-- A successful `validate_type` returns the lowercased input, which is in
the valid set. -/
theorem validate_type_ok {v t : String} (h : ResponseFormat.validate_type v = .ok t) :
    t = pyLower v ∧ t ∈ ResponseFormat.valid_types := by
  unfold ResponseFormat.validate_type at h
  split at h
  · cases h; exact ⟨rfl, by assumption⟩
  · cases h

/-- On members of the valid set, `validate_type` is the identity. -/
theorem validate_type_fix {t : String} (ht : t ∈ ResponseFormat.valid_types) :
    ResponseFormat.validate_type t = .ok t := by
  unfold ResponseFormat.validate_type
  rw [pyLower_fix_types t ht, if_pos ht]

/-- A successful `validate_style` returns the lowercased input and is
stable under revalidation. -/
theorem validate_style_ok {v : Option String} {s : Option String}
    (h : ResponseFormat.validate_style v = .ok s) :
    s = v.map pyLower ∧ ResponseFormat.validate_style s = .ok s := by
  cases v with
  | none => cases h; exact ⟨rfl, rfl⟩
  | some v0 =>
    simp only [ResponseFormat.validate_style] at h
    split at h
    · cases h
      refine ⟨rfl, ?_⟩
      rename_i hmem
      simp only [ResponseFormat.validate_style]
      rw [pyLower_fix_styles _ hmem, if_pos hmem]
    · cases h

/-- A successful `validate_tone` returns the lowercased input and is
stable under revalidation. -/
theorem validate_tone_ok {v : Option String} {s : Option String}
    (h : ResponseFormat.validate_tone v = .ok s) :
    s = v.map pyLower ∧ ResponseFormat.validate_tone s = .ok s := by
  cases v with
  | none => cases h; exact ⟨rfl, rfl⟩
  | some v0 =>
    simp only [ResponseFormat.validate_tone] at h
    split at h
    · cases h
      refine ⟨rfl, ?_⟩
      rename_i hmem
      simp only [ResponseFormat.validate_tone]
      rw [pyLower_fix_tones _ hmem, if_pos hmem]
    · cases h

/-- Claim C9: every `ResponseFormat` that passes validation has its
`type`, `style` and `tone` canonicalized to the lowercase forms of the
inputs, and validating the validated value again returns it unchanged
(idempotence). -/
theorem c9_validation_lowercase_idempotent (f g : ResponseFormat)
    (h : ResponseFormat.validate f = .ok g) :
    g.type = pyLower f.type ∧ g.style = f.style.map pyLower ∧
      g.tone = f.tone.map pyLower ∧ ResponseFormat.validate g = .ok g := by
  unfold ResponseFormat.validate at h
  cases ht : ResponseFormat.validate_type f.type with
  | error m => rw [ht] at h; cases h
  | ok t =>
    rw [ht] at h
    cases hs : ResponseFormat.validate_style f.style with
    | error m => rw [hs] at h; cases h
    | ok s =>
      rw [hs] at h
      cases htn : ResponseFormat.validate_tone f.tone with
      | error m => rw [htn] at h; cases h
      | ok tn =>
        rw [htn] at h
        cases h
        obtain ⟨htl, htm⟩ := validate_type_ok ht
        obtain ⟨hsl, hsv⟩ := validate_style_ok hs
        obtain ⟨htnl, htnv⟩ := validate_tone_ok htn
        refine ⟨htl, hsl, htnl, ?_⟩
        unfold ResponseFormat.validate
        rw [show ({ f with type := t, style := s, tone := tn } : ResponseFormat).type = t from rfl,
            validate_type_fix htm]
        rw [show ({ f with type := t, style := s, tone := tn } : ResponseFormat).style = s from rfl,
            hsv]
        rw [show ({ f with type := t, style := s, tone := tn } : ResponseFormat).tone = tn from rfl,
            htnv]

/-- Witness for C9 at a mixed-case valid format. -/
theorem c9_validation_lowercase_idempotent_witness :
    ResponseFormat.validate c9Input = .ok c9Output ∧
    (c9Output.type = pyLower c9Input.type ∧
      c9Output.style = c9Input.style.map pyLower ∧
      c9Output.tone = c9Input.tone.map pyLower ∧
      ResponseFormat.validate c9Output = .ok c9Output) :=
  ⟨rfl, c9_validation_lowercase_idempotent c9Input c9Output rfl⟩

namespace ResponseResponse

/-- Well-shaped output entries are JSON objects. -/
theorem wellShapedItem_obj {item : Json} (h : wellShapedItem item) :
    ∃ fs, item = Json.obj fs := by
  cases item with
  | obj fs => exact ⟨fs, rfl⟩
  | null => exact absurd h (by simp [wellShapedItem])
  | bool b => exact absurd h (by simp [wellShapedItem])
  | num q => exact absurd h (by simp [wellShapedItem])
  | str s => exact absurd h (by simp [wellShapedItem])
  | arr xs => exact absurd h (by simp [wellShapedItem])

/-- The `content` field of a well-shaped entry is an array of objects. -/
theorem wellShapedItem_content {fs : List (String × Json)} {cl : Json}
    (h : wellShapedItem (Json.obj fs)) (hc : Json.lookupField fs "content" = some cl) :
    ∃ xs, cl = Json.arr xs ∧ ∀ x ∈ xs, ∃ gs, x = Json.obj gs := by
  simp only [wellShapedItem, hc] at h
  cases cl with
  | arr xs => exact ⟨xs, rfl, h⟩
  | null => exact h.elim
  | bool b => exact h.elim
  | num q => exact h.elim
  | str s => exact h.elim
  | obj gs => exact h.elim

/-- One step of the message-scan loop on a well-shaped object entry:
either its message text is found, or the loop moves on. -/
theorem contentLoop_cons_obj (fs : List (String × Json)) (rest : List Json)
    (hitem : wellShapedItem (Json.obj fs)) :
    contentLoop (Json.obj fs :: rest) =
      match messageText? (Json.obj fs) with
      | some v => .ok (some v)
      | none => contentLoop rest := by
  cases hty : Json.lookupField fs "type" with
  | none =>
    simp [contentLoop, messageText?, hty]
  | some j =>
    cases j with
    | str t =>
      by_cases htm : t = "message"
      · subst htm
        cases hc : Json.lookupField fs "content" with
        | none => simp [contentLoop, messageText?, hty, hc]
        | some cl =>
          obtain ⟨xs, rfl, hxs⟩ := wellShapedItem_content hitem hc
          cases xs with
          | nil => simp [contentLoop, messageText?, hty, hc, Json.truthy]
          | cons c cs =>
            obtain ⟨gs, rfl⟩ := hxs c (List.mem_cons_self _ _)
            cases hgt : Json.lookupField gs "text" with
            | none =>
              simp [contentLoop, messageText?, hty, hc, hgt, Json.truthy,
                    pyLen, pyIndexZero, pyContains]
            | some w =>
              simp [contentLoop, messageText?, hty, hc, hgt, Json.truthy,
                    pyLen, pyIndexZero, pyContains, pyIndexStr]
      · cases hc : Json.lookupField fs "content" with
        | none => simp [contentLoop, messageText?, hty, htm, hc]
        | some val =>
          cases val with
          | arr xs => cases xs <;> simp [contentLoop, messageText?, hty, htm, hc]
          | null => simp [contentLoop, messageText?, hty, htm, hc]
          | bool b => simp [contentLoop, messageText?, hty, htm, hc]
          | num q => simp [contentLoop, messageText?, hty, htm, hc]
          | str s => simp [contentLoop, messageText?, hty, htm, hc]
          | obj gs => simp [contentLoop, messageText?, hty, htm, hc]
    | null => simp [contentLoop, messageText?, hty]
    | bool b => simp [contentLoop, messageText?, hty]
    | num q => simp [contentLoop, messageText?, hty]
    | arr xs => simp [contentLoop, messageText?, hty]
    | obj gs => simp [contentLoop, messageText?, hty]

/-- On well-shaped output the message scan never raises and computes the
spec's first-message strategy. -/
theorem contentLoop_wellShaped (out : List Json)
    (h : ∀ item ∈ out, wellShapedItem item) :
    contentLoop out = .ok (out.findSome? messageText?) := by
  induction out with
  | nil => rfl
  | cons item rest ih =>
    obtain ⟨fs, rfl⟩ := wellShapedItem_obj (h item (List.mem_cons_self _ _))
    rw [contentLoop_cons_obj fs rest (h _ (List.mem_cons_self _ _)),
        List.findSome?_cons]
    cases hm : messageText? (Json.obj fs) with
    | some v => rfl
    | none => exact ih fun i hi => h i (List.mem_cons_of_mem _ hi)

/-- On a well-shaped entry the single-item branch never raises and
computes the spec's second strategy. -/
theorem contentFromFirst_wellShaped (item : Json) (hitem : wellShapedItem item) :
    contentFromFirst item = .ok (firstContentText? item) := by
  obtain ⟨fs, rfl⟩ := wellShapedItem_obj hitem
  cases hc : Json.lookupField fs "content" with
  | none => simp [contentFromFirst, firstContentText?, pyContains, hc]
  | some cl =>
    obtain ⟨xs, rfl, hxs⟩ := wellShapedItem_content hitem hc
    cases xs with
    | nil => simp [contentFromFirst, firstContentText?, pyContains, pyIndexStr, pyLen, hc]
    | cons c cs =>
      obtain ⟨gs, rfl⟩ := hxs c (List.mem_cons_self _ _)
      cases hgt : Json.lookupField gs "text" with
      | none =>
        simp [contentFromFirst, firstContentText?, pyContains, pyIndexStr,
              pyLen, pyIndexZero, hc, hgt]
      | some w =>
        simp [contentFromFirst, firstContentText?, pyContains, pyIndexStr,
              pyLen, pyIndexZero, hc, hgt]

/-- The text and choices tail of `content` computes the spec's third
strategy with the empty-string default (no `choices` present). -/
theorem textChoicesTail (t : Option (String ⊕ List (String × Json))) :
    (match (match t with
            | some (.inl s) => if s ≠ "" then some (Json.str s) else none
            | some (.inr fs) => if !fs.isEmpty then Json.lookupField fs "content" else none
            | none => none) with
     | some v => (Except.ok v : Except PyExc Json)
     | none => Except.ok (Json.str "")) =
      Except.ok ((textFieldContent? t).getD (Json.str "")) := by
  cases t with
  | none => rfl
  | some st =>
    cases st with
    | inl s => by_cases hs : s ≠ "" <;> simp [textFieldContent?, hs]
    | inr fs =>
      by_cases he : !fs.isEmpty
      · cases hlk : Json.lookupField fs "content" <;> simp [textFieldContent?, he, hlk]
      · simp [textFieldContent?, he]

end ResponseResponse

/-- Claim C7 counterexample: the claim says reading `content` never
raises, but on a reply whose `output` entries are numbers
(`{"id": ..., "output": [1, 2]}` parses fine — pydantic only requires a
list) `output_item.get('type')` raises `AttributeError`. -/
theorem c7_content_raises_counterexample :
    (parseResponseResponse c7Raw).map (fun r => r.content) =
      .ok (.error (.attributeError "object has no attribute get")) := rfl

/-- Claim C7 (amended): for every reply whose output entries are JSON
objects with array-of-object `content` fields (all real API replies),
reading `content` never raises: it equals the spec's ordered strategies
(first message entry, then `output[0]`, then the top-level `text` field),
returning the empty string when none matches. `choices` is `none` on
every parsed reply. -/
theorem c7_content_never_raises_on_well_shaped (r : ResponseResponse)
    (hout : ResponseResponse.wellShapedOutput r.output) (hch : r.choices = none) :
    r.content = .ok (ResponseResponse.contentSpec r) := by
  open ResponseResponse in
  unfold ResponseResponse.content ResponseResponse.contentSpec
  rw [hch]
  cases hop : r.output with
  | none => exact ResponseResponse.textChoicesTail r.text
  | some out =>
    rw [hop] at hout
    have hw : ∀ i ∈ out, ResponseResponse.wellShapedItem i := hout
    cases out with
    | nil => exact ResponseResponse.textChoicesTail r.text
    | cons item rest =>
      cases rest with
      | nil =>
        have hfirst := ResponseResponse.contentFromFirst_wellShaped item (hw item (by simp))
        cases hff : ResponseResponse.firstContentText? item with
        | some v =>
          rw [hff] at hfirst
          simp [hfirst, hff]
        | none =>
          rw [hff] at hfirst
          simp only [List.length_cons, List.length_nil, hfirst, hff]
          simp only [show ¬(0 + 1 > 1) from by omega, if_false, Option.none_orElse]
          exact ResponseResponse.textChoicesTail r.text
      | cons item2 rest2 =>
        have hlen : (item :: item2 :: rest2).length > 1 := by
          simp [List.length_cons]
        have hloop := ResponseResponse.contentLoop_wellShaped (item :: item2 :: rest2) hw
        cases hfs : List.findSome? ResponseResponse.messageText? (item :: item2 :: rest2) with
        | some v =>
          rw [hfs] at hloop
          simp [hloop, hlen, hfs]
        | none =>
          rw [hfs] at hloop
          have hfirst := ResponseResponse.contentFromFirst_wellShaped item (hw item (by simp))
          cases hff : ResponseResponse.firstContentText? item with
          | some v =>
            rw [hff] at hfirst
            simp [hloop, hlen, hfs, hfirst, hff]
          | none =>
            rw [hff] at hfirst
            simp only [hloop, hlen, hfs, hfirst, hff, if_pos hlen, Option.none_orElse]
            exact ResponseResponse.textChoicesTail r.text

/-- Witness for C7 at a one-message reply (decoding to `"hi"`). -/
theorem c7_content_never_raises_on_well_shaped_witness :
    ResponseResponse.wellShapedOutput c7Resp.output ∧ c7Resp.choices = none ∧
      c7Resp.content = .ok (ResponseResponse.contentSpec c7Resp) := by
  have hwf : ResponseResponse.wellShapedOutput c7Resp.output := by
    intro i hi
    cases hi with
    | head =>
      simp only [c7Item, ResponseResponse.wellShapedItem, Json.lookupField]
      simp only [show ("type" = "content") = False from by simp, if_false,
                 show ("content" = "content") = True from by simp, if_true]
      intro x hx
      cases hx with
      | head => exact ⟨_, rfl⟩
      | tail _ h2 => exact absurd h2 (List.not_mem_nil _)
    | tail _ h2 => exact absurd h2 (List.not_mem_nil _)
  exact ⟨hwf, rfl, c7_content_never_raises_on_well_shaped c7Resp hwf rfl⟩

/-- Claim C8 counterexample: the natural choices-style reply — no
`output`, no `text`, `choices[0].message.content == "hi"` — decodes with
`choices` dropped by the parser and `content` equal to the empty string,
not `"hi"`: no raw reply can reach the choices fallback. -/
theorem c8_choices_reply_counterexample :
    (parseResponseResponse c8Raw).map (fun r => (r.choices, r.content)) =
      .ok (none, .ok (.str "")) := rfl

/-- Claim C8 (amended): the choices-style fallback in `content` is dead
code — `choices` is not a declared field of `ResponseResponse`, the
parser drops unknown keys, so every parsed reply has `choices = none` and
the `hasattr(self, 'choices')` branch can never fire. -/
theorem c8_choices_fallback_unreachable (raw : Json) (r : ResponseResponse)
    (h : parseResponseResponse raw = .ok r) : r.choices = none := by
  unfold parseResponseResponse at h
  split at h
  · split at h
    · split at h
      · cases h
      · split at h
        · cases h
        · split at h
          · cases h
          · split at h
            · cases h
            · split at h
              · cases h
              · split at h
                · cases h
                · split at h
                  · cases h
                  · split at h
                    · cases h
                    · cases h; rfl
    · cases h
    · cases h
  · cases h

/-- Witness for C8 at the choices-style reply. -/
theorem c8_choices_fallback_unreachable_witness :
    parseResponseResponse c8Raw = .ok c8Parsed ∧ c8Parsed.choices = none :=
  ⟨rfl, c8_choices_fallback_unreachable c8Raw c8Parsed rfl⟩
